import Mathlib

/-!
Verification development for the build123things repository (parameter capture,
memoized construction, attribute ownership guard, mount points, joints and
transform resolvers).  The Python source is shallowly embedded: stateful code
becomes explicit state passing over a `World` record, fallible code returns
`Except PyErr`, and the opaque geometry kernel (build123d locations) is
modelled as an arbitrary group of rigid transforms.
-/

set_option autoImplicit false

namespace B123T

/-- Python exception kinds raised by the embedded code paths. -/
inductive PyErr where
  | assertionError : PyErr
  | attributeError (msg : String) : PyErr
  | valueError : PyErr
  | argumentError (expr : String) (adjustedType : String) : PyErr
  | keyError (key : String) : PyErr
  | indexError : PyErr
  | typeError : PyErr
  | runtimeError : PyErr
deriving DecidableEq, Repr

/-- Model of the Python runtime values that appear as constructor arguments,
captured parameters, attribute values and memoization-cache entries.  Geometry
values are opaque to the core (the spec treats the kernel as an external
collaborator), so geometric results are represented by opaque payloads
(`inertiaResult`), not by their internal structure.  `mount` keeps exactly the
identity/ownership data that `Thing.__setattr__` inspects. -/
inductive Value where
  | num (q : ℚ)
  | str (s : String)
  | thing (id : Nat)
  | vnone
  | material (density : ℚ)
  | mount (mid : Nat) (ownerId : Option Nat) (knownAs : Option String)
  | inertiaResult (q : ℚ)
deriving DecidableEq, Repr

/-- Model of Python str()/repr() of a value, used for memoization keys
(misc.py line 28: signature = str(args) + str(kwargs)).  The exact rendering is
irrelevant to the theorems; what matters, faithfully to CPython, is that it is
a deterministic function of the value (repr of a fixed, unmutated object does
not change between calls). -/
def reprValue : Value → String
  | .num q => "num:" ++ toString q
  | .str s => "str:" ++ s
  | .thing i => "Thing#" ++ toString i
  | .vnone => "None"
  | .material d => "Material:" ++ toString d
  | .mount m o k =>
      "MountPoint#" ++ toString m ++ ":" ++ toString o ++ ":" ++ toString k
  | .inertiaResult q => "inertia:" ++ toString q

/-- Python tuple rendering (the one-element trailing comma is dropped; only
determinism and injectivity-in-the-model matter for the theorems). -/
def strTupleOf (xs : List String) : String :=
  "(" ++ String.intercalate ", " xs ++ ")"

/-- Python dict rendering of keyword arguments; square brackets stand in for
the brace delimiters of CPython, which is irrelevant to every theorem. -/
def strKwargsOf (kwargs : List (String × Value)) : String :=
  "[" ++ String.intercalate ", " (kwargs.map (fun p => p.1 ++ ": " ++ reprValue p.2)) ++ "]"

/-- Signature string for a memoized bound-method call, per misc.py line 28:
str(args) + str(kwargs), where args starts with self. -/
def methodSig (args : List Value) (kwargs : List (String × Value)) : String :=
  strTupleOf (args.map reprValue) ++ strKwargsOf kwargs

/-- Signature string for `ThingMeta.__call__`: the memoized callable receives
(cls, *args) as its positional arguments, so the class lands in the key. -/
def constructSig (cls : String) (args : List Value) (kwargs : List (String × Value)) : String :=
  strTupleOf (("<class " ++ cls ++ ">") :: args.map reprValue) ++ strKwargsOf kwargs

/-- One entry of a Thing's captured parameter history `__parameters__`: the
defining class and the bound-argument mapping (insertion ordered, including
the `self` binding, as produced by inspect.Signature.bind). -/
structure CapEntry where
  cls : String
  params : List (String × Value)
deriving DecidableEq, Repr

/-- Per-instance data of a constructed Thing.  The geometric payload of
`result()` is opaque to the core: `resultVolume` is `none` when `result()`
returns None, otherwise the kernel-computed volume; `inertiaRaw` stands for
the mesh-derived inertia data of the temporary-STL round trip. -/
structure ThingRecord where
  history : List CapEntry
  resultVolume : Option ℚ
  density : ℚ
  inertiaRaw : ℚ
deriving DecidableEq, Repr

/-- Process-wide mutable state: the id allocator, the global registry of all
constructed Things (`Thing.list_of_all_existing_things`), and the single
`MEMOIZATION_CACHE` dictionary of misc.py (insertion at the front; lookup
finds the entry for a key, as a dict does). -/
structure World where
  nextId : Nat
  things : List (Nat × ThingRecord)
  cache : List (String × Value)
deriving DecidableEq, Repr

/-- Dictionary lookup in the memoization cache. -/
def lookupCache (c : List (String × Value)) (sig : String) : Option Value :=
  (c.find? (fun p => p.1 == sig)).map (fun p => p.2)

/-- Registry lookup by object identity (a Thing id). -/
def lookupThing (ts : List (Nat × ThingRecord)) (id : Nat) : Option ThingRecord :=
  (ts.find? (fun p => p.1 == id)).map (fun p => p.2)

/-- The body of `misc.memoize`: if the signature is not in the cache, run the
wrapped callable and store its result under the signature; then return the
cached value.  The cache is shared by every memoized callable and keyed only
by the signature string. -/
def memoizeCall (sig : String) (f : World → Value × World) (w : World) : Value × World :=
  match lookupCache w.cache sig with
  | some v => (v, w)
  | none =>
      let vw := f w
      (vw.1, { vw.2 with cache := (sig, vw.1) :: vw.2.cache })

/-- Model of `ThingMeta.__call__` (memoized): intercepts instantiation of cls
with the given arguments.  On a cache miss the constructor runs: a fresh
object identity is allocated, registered in the global list, and its captured
parameter record is produced by the class's (user-written, hence opaque to the
core) constructor chain, abstracted as `runInit`. -/
def constructThing (runInit : String → List Value → List (String × Value) → ThingRecord)
    (cls : String) (args : List Value) (kwargs : List (String × Value)) (w : World) :
    Value × World :=
  memoizeCall (constructSig cls args kwargs)
    (fun w0 => (Value.thing w0.nextId,
      { w0 with
          nextId := w0.nextId + 1
          things := (w0.nextId, runInit cls args kwargs) :: w0.things })) w

/-- The body of `Thing.volume_mm3` (without the memoize wrapper): 0.0 when
`result()` is None, otherwise the kernel-computed volume of the result. -/
def volume_mm3_compute (r : ThingRecord) : Value :=
  match r.resultVolume with
  | none => Value.num 0
  | some v => Value.num v

/-- The body of `Thing.matrix_of_inertia` (without the memoize wrapper):
zero matrices when `result()` is None, otherwise the mesh-derived inertia
scaled by the density (the STL round trip is opaque kernel work, represented
by the record's `inertiaRaw` payload). -/
def matrix_of_inertia_compute (r : ThingRecord) : Value :=
  match r.resultVolume with
  | none => Value.inertiaResult 0
  | some _ => Value.inertiaResult (r.inertiaRaw * r.density)

/-- Memoized `Thing.volume_mm3` called with no extra arguments: the wrapped
callable receives args = (self,) and kwargs = dict(), so the signature is
computed from the instance alone. -/
def volume_mm3 (tid : Nat) (r : ThingRecord) (w : World) : Value × World :=
  memoizeCall (methodSig [Value.thing tid] []) (fun w0 => (volume_mm3_compute r, w0)) w

/-- Memoized `Thing.matrix_of_inertia` called with no extra arguments: the
wrapped callable receives args = (self,) and kwargs = dict() -- the same
signature string as a bare `volume_mm3` call on the same instance. -/
def matrix_of_inertia (tid : Nat) (r : ThingRecord) (w : World) : Value × World :=
  memoizeCall (methodSig [Value.thing tid] []) (fun w0 => (matrix_of_inertia_compute r, w0)) w

/-- A Thing as seen by the attribute ownership guard: the names reachable on
the class hierarchy (methods, properties) and the instance dictionary.
Python's dir(self) is the union of the two (sorted; only membership
matters here). -/
structure ThingObj where
  classAttrs : List String
  instDict : List (String × Value)
deriving DecidableEq, Repr

/-- Python dir(self): class-level names plus instance-dictionary names. -/
def dirOf (t : ThingObj) : List String :=
  t.classAttrs ++ t.instDict.map Prod.fst

/-- Character classes of Python identifiers (ASCII model; the repository uses
ASCII attribute names throughout). -/
def isIdentStart (c : Char) : Bool := c.isAlpha || c == '_'

/-- Continuation characters of Python identifiers (ASCII model). -/
def isIdentChar (c : Char) : Bool := c.isAlphanum || c == '_'

/-- Model of str.isidentifier for ASCII names. -/
def isPyIdentifier (s : String) : Bool :=
  match s.data with
  | [] => false
  | c :: cs => isIdentStart c && cs.all isIdentChar

/-- The call-stack test of `Thing.__setattr__` line 312: the write must come
directly from an `__init__` frame, or from `__setitem__` called by an
`__init__` frame.  The two relevant caller frame names are passed in. -/
def setattrAllowedCaller (frame1 frame2 : String) : Bool :=
  frame1 == "__init__" || (frame1 == "__setitem__" && frame2 == "__init__")

/-- Model of `Thing.__setattr__` (source lines 307-336), with the checks in
source order: identifier assert, reassignment guard against dir(self), caller
check, material typing, direct-Thing rejection, mount-point ownership claim,
and finally the backing-store write.  `selfId` is the identity of the entity
being written to. -/
def Thing.setattr (self : ThingObj) (selfId : Nat) (frame1 frame2 : String)
    (name : String) (v : Value) : Except PyErr ThingObj :=
  if ¬ isPyIdentifier name then
    .error .assertionError
  else if name ∈ dirOf self then
    .error (.attributeError ("Attribute " ++ name ++ " cannot be reassigned. Instantiate a new Thing by new_altered method if you need to modify it."))
  else if ¬ setattrAllowedCaller frame1 frame2 then
    .error (.attributeError "You can assign only during __init__.")
  else if name == "__material__" then
    match v with
    | .material _ => .ok { self with instDict := self.instDict ++ [(name, v)] }
    | _ => .error .assertionError
  else
    match v with
    | .thing _ =>
        .error (.attributeError "You may not attach other Things directly. Align them via align method instead.")
    | .mount mid ow ka =>
        if ow.isSome && ka.isSome then
          -- owned(): the write must be idempotent (same owner, same name)
          match ow, ka with
          | some o, some k =>
              if o == selfId && k == name then
                .ok { self with instDict := self.instDict ++ [(name, v)] }
              else .error .assertionError
          | _, _ => .error .assertionError
        else
          -- claim it: owner setter asserts _owner is None, then known_as
          -- setter asserts _known_as is None
          match ow with
          | some _ => .error .assertionError
          | none =>
              match ka with
              | some _ => .error .assertionError
              | none =>
                  .ok { self with instDict := self.instDict ++ [(name, Value.mount mid (some selfId) (some name))] }
    | _ => .ok { self with instDict := self.instDict ++ [(name, v)] }

/-- Dictionary lookup on an insertion-ordered association list (Python dict
semantics). -/
def dictLookup (d : List (String × Value)) (k : String) : Option Value :=
  (d.find? (fun p => p.1 == k)).map (fun p => p.2)

/-- Dictionary store: replacing an existing key keeps its position; a new key
is appended at the end (Python dict semantics). -/
def dictSet (d : List (String × Value)) (k : String) (v : Value) : List (String × Value) :=
  if (d.find? (fun p => p.1 == k)).isSome then
    d.map (fun p => if p.1 == k then (k, v) else p)
  else d ++ [(k, v)]

/-- Dictionary deletion of one key. -/
def dictRemove (d : List (String × Value)) (k : String) : List (String × Value) :=
  d.filter (fun p => ¬ p.1 == k)

/-- Index of the first occurrence of a double underscore in a character
list (Python str.find of the two-character needle). -/
def findDunder : List Char → Option Nat
  | [] => none
  | [_] => none
  | a :: b :: rest =>
      if a == '_' && b == '_' then some 0
      else (findDunder (b :: rest)).map (· + 1)

/-- The `arg_basename` helper of `Thing.adjust` (lines 401-403): strip
everything from the first double underscore on, but only when it occurs at a
positive position (`fnd > 0`). -/
def arg_basename (s : String) : String :=
  match findDunder s.data with
  | some i => if 0 < i then String.mk (s.data.take i) else s
  | none => s

/-- The inner while loop of the implicit resolution in `Thing.adjust`
(lines 408-411), walking the capture entries from the current index with the
running index alongside: advance `resolved_index` until the current capture
entry contains the base name; on incrementing past the end raise
ArgumentError with the offending expression and the adjusted type; indexing
past the available entries raises IndexError. -/
def whileAdvanceAux (typeName orig base : String) (totalLen : Nat) :
    List CapEntry → Nat → Except PyErr Nat
  | [], _ => .error .indexError
  | entry :: rest, idx =>
      if base ∈ entry.params.map Prod.fst then .ok idx
      else if totalLen ≤ idx + 1 then .error (.argumentError orig typeName)
      else whileAdvanceAux typeName orig base totalLen rest (idx + 1)

/-- The while loop of lines 408-411 entered at `resolved_index = idx`: the
entries at positions below `idx` have already been passed over. -/
def whileAdvance (history : List CapEntry) (typeName orig base : String)
    (idx : Nat) : Except PyErr Nat :=
  whileAdvanceAux typeName orig base history.length (history.drop idx) idx

/-- Implicit class resolution of `Thing.adjust` (cls is None, lines 399-412):
scan the delta keys in call order, skipping the pseudo-keys, threading the
monotone index through `whileAdvance`; the index starts at 0. -/
def resolveImplicit (history : List CapEntry) (typeName : String)
    (keys : List String) : Except PyErr Nat :=
  keys.foldlM
    (fun idx key =>
      if key == "__add" || key == "__mul" then pure idx
      else whileAdvance history typeName key (arg_basename key) idx)
    0

/-- Explicit class resolution of `Thing.adjust` (lines 413-422): the first
capture entry whose recorded class is an identity match; assert found. -/
def resolveExplicit (history : List CapEntry) (cls : String) : Except PyErr Nat :=
  match history.findIdx? (fun e => e.cls == cls) with
  | some i => .ok i
  | none => .error .assertionError

/-- Python + on captured parameter values (numbers add, strings concatenate,
anything else is a TypeError; the repository only ever adjusts numeric
parameters). -/
def vAdd : Value → Value → Except PyErr Value
  | .num a, .num b => .ok (.num (a + b))
  | .str a, .str b => .ok (.str (a ++ b))
  | _, _ => .error .typeError

/-- Python * on captured parameter values (numeric model). -/
def vMul : Value → Value → Except PyErr Value
  | .num a, .num b => .ok (.num (a * b))
  | _, _ => .error .typeError

/-- Python truthiness of `x != 0` for the `add_all` accumulator. -/
def pyNeZero : Value → Bool
  | .num q => q != 0
  | _ => true

/-- Python truthiness of `x != 1` for the `mul_all` accumulator. -/
def pyNeOne : Value → Bool
  | .num q => q != 1
  | _ => true

/-- Loop state of the delta-application loop of `Thing.adjust`
(lines 426-451). -/
structure DeltaState where
  modified : List String
  addAll : Value
  mulAll : Value
  params : List (String × Value)

/-- One iteration of the delta-application loop (lines 429-451): pseudo-keys
set the accumulators; a `__add`/`__mul` suffix reads the stored value and
combines; a bare name must be a fresh, existing parameter; each base name may
be targeted at most once. -/
def applyDeltaStep (st : DeltaState) (kv : String × Value) : Except PyErr DeltaState :=
  let name := kv.1
  let value := kv.2
  if name == "__add" then .ok { st with addAll := value }
  else if name == "__mul" then .ok { st with mulAll := value }
  else if name.endsWith "__add" then
    let base := name.dropRight 5
    if base ∈ st.modified then .error .assertionError
    else
      match dictLookup st.params base with
      | none => .error (.keyError base)
      | some old =>
          match vAdd old value with
          | .error e => .error e
          | .ok vnew =>
              .ok { st with modified := base :: st.modified,
                            params := dictSet st.params base vnew }
  else if name.endsWith "__mul" then
    let base := name.dropRight 5
    if base ∈ st.modified then .error .assertionError
    else
      match dictLookup st.params base with
      | none => .error (.keyError base)
      | some old =>
          match vMul old value with
          | .error e => .error e
          | .ok vnew =>
              .ok { st with modified := base :: st.modified,
                            params := dictSet st.params base vnew }
  else
    if name ∈ st.modified then .error .assertionError
    else if (dictLookup st.params name).isSome then
      .ok { st with modified := name :: st.modified,
                    params := dictSet st.params name value }
    else .error .assertionError

/-- The delta-application phase of `Thing.adjust` (lines 426-459): run the
loop, then apply the mutually-exclusive global additive or multiplicative
modifier uniformly to every parameter. -/
def applyDeltas (params : List (String × Value)) (deltas : List (String × Value)) :
    Except PyErr (List (String × Value)) := do
  let st ← deltas.foldlM applyDeltaStep ⟨[], Value.num 0, Value.num 1, params⟩
  if pyNeZero st.addAll && pyNeOne st.mulAll then
    .error .valueError
  else if pyNeZero st.addAll then
    st.params.mapM (fun p => do
      let v ← vAdd p.2 st.addAll
      pure (p.1, v))
  else if pyNeOne st.mulAll then
    st.params.mapM (fun p => do
      let v ← vMul p.2 st.mulAll
      pure (p.1, v))
  else
    .ok st.params

/-- Class resolution dispatch of `Thing.adjust`: implicit resolution over the
delta key names when no class is given, exact identity match otherwise. -/
def adjustResolve (history : List CapEntry) (typeName : String)
    (clsArg : Option String) (keys : List String) : Except PyErr Nat :=
  match clsArg with
  | none => resolveImplicit history typeName keys
  | some c => resolveExplicit history c

/-- Model of `Thing.adjust` (lines 383-468) on the captured history of the
instance being adjusted.  `typeName` is type(self), which by capture order is
the class of the first history entry for a real instance but is passed
explicitly here.  The copy.copy of the stored bound-argument dict is
reflected by operating on a separate value; the stored history itself is
never written.  Returns the result of the re-construction (possibly a
memoized pre-existing instance) together with the final world; on an
exception the world is returned unchanged, as every world effect in the
source happens in the final cls(**params) call. -/
def adjust (runInit : String → List Value → List (String × Value) → ThingRecord)
    (record : ThingRecord) (typeName : String) (clsArg : Option String)
    (deltas : List (String × Value)) (w : World) : Except PyErr Value × World :=
  match adjustResolve record.history typeName clsArg (deltas.map Prod.fst) with
  | .error e => (.error e, w)
  | .ok i =>
      match record.history.get? i with
      | none => (.error .indexError, w)
      | some entry =>
          let params0 := dictRemove entry.params "self"
          match applyDeltas params0 deltas with
          | .error e => (.error e, w)
          | .ok params1 =>
              let vw := constructThing runInit entry.cls [] params1 w
              (.ok vw.1, vw.2)

section Geometry

/-!
The geometry kernel (build123d) is an excluded collaborator: the core needs
only transform composition, inversion and the identity (spec section 6), so a
`bd.Location` is modelled as an element of an arbitrary group `L`.  The
numeric Location constructor of build123d -- position triple plus XYZ
orientation triple in degrees -- is abstracted as `mkLocation`;
`bd.Location()` with no arguments is the identity transform, i.e. `1 : L`.
-/

variable {L : Type} [Group L]

/-- A mount point as the joint code sees it: its object identity (Python `is`
comparisons), its local transform in the owner's frame, and its owning
entity.  The outbound/inbound joint slots live in `MountWithJoints`, which
breaks the mount/joint reference cycle of the source. -/
structure MountPoint (L : Type) where
  mid : Nat
  location : L
  ownerId : Option Nat
deriving DecidableEq

/-- Kind-specific joint data: `Rigid` carries nothing; `Revolute` carries its
optional limits and the currently stored angle parameter (the
`__param_kwargs__` alpha written by `set`). -/
inductive JointSpec where
  | rigid
  | revolute (limitAngle : Option (ℚ × ℚ)) (limitEffort limitVelocity : Option ℚ) (alpha : ℚ)
deriving DecidableEq, Repr

/-- A joint instance: reference mount, moving mount, kind-specific state. -/
structure Joint (L : Type) where
  referenceMount : MountPoint L
  movingMount : MountPoint L
  spec : JointSpec
deriving DecidableEq

/-- Model of `AbstractJoint.get_other_mount` (lines 747-754): identify the
given mount against the joint's two mounts by object identity, return the
opposite one, else ValueError. -/
def get_other_mount (j : Joint L) (ref : MountPoint L) : Except PyErr (MountPoint L) :=
  if ref.mid == j.referenceMount.mid then .ok j.movingMount
  else if ref.mid == j.movingMount.mid then .ok j.referenceMount
  else .error .valueError

variable (mkLocation : ℚ × ℚ × ℚ → ℚ × ℚ × ℚ → L)

/-- Source line 30: `MOUNTING_LOCATION = bd.Location((0,0,0),(180,0,90))`,
the fixed mating convention -- 180 degrees about X and 90 degrees about Z. -/
def MOUNTING_LOCATION : L := mkLocation (0, 0, 0) (180, 0, 90)

/-- Dynamic dispatch of `transform` over the concrete joint kinds:
`Rigid.transform` (joints.py lines 14-15) returns the identity transform,
ignoring both mount arguments; `Revolute.transform` (lines 46-53) returns the
pure Z rotation by the stored alpha when queried as (reference, moving), its
inverse when queried as (moving, reference), and raises ValueError
otherwise. -/
def jointTransform (j : Joint L) (mount_from mount_to : MountPoint L) : Except PyErr L :=
  match j.spec with
  | .rigid => .ok 1
  | .revolute _ _ _ a =>
      let t := mkLocation (0, 0, 0) (0, 0, a)
      if mount_from.mid == j.referenceMount.mid && mount_to.mid == j.movingMount.mid then
        .ok t
      else if mount_from.mid == j.movingMount.mid && mount_to.mid == j.referenceMount.mid then
        .ok t⁻¹
      else .error .valueError

/-- The `owner` property getter of `MountPoint` (lines 138-141): asserts the
owner has been set. -/
def ownerGet (m : MountPoint L) : Except PyErr Nat :=
  match m.ownerId with
  | some o => .ok o
  | none => .error .assertionError

/-- Model of `Revolute.set` (joints.py lines 55-58): when limits were
declared, assert the closed-range check (inclusive bounds) before storing;
then the superclass stores alpha as the current parameter state.  Calling it
on a Rigid joint is a TypeError (Rigid.set takes no argument). -/
def revoluteSet (j : Joint L) (alpha : ℚ) : Except PyErr (Joint L) :=
  match j.spec with
  | .revolute limit le lv _ =>
      match limit with
      | some lohi =>
          if lohi.1 ≤ alpha ∧ alpha ≤ lohi.2 then
            .ok ⟨j.referenceMount, j.movingMount, .revolute limit le lv alpha⟩
          else .error .assertionError
      | none => .ok ⟨j.referenceMount, j.movingMount, .revolute none le lv alpha⟩
  | .rigid => .error .typeError

/-- Model of the `Revolute` constructor (joints.py lines 30-44 together with
`AbstractJoint.__init__`, lines 705-745): record the limits, assert the two
mounts' owning entities differ (each owner getter asserting ownership is
set), and finish with `set_default`, which is `set(0)` validated against the
declared limits.  Mount registration mutates only the mounts' joint slots,
which live outside this value. -/
def revoluteNew (stator rotor : MountPoint L) (limit_velocity limit_effort : Option ℚ)
    (limit_angle : Option (ℚ × ℚ)) : Except PyErr (Joint L) := do
  let movingOwner ← ownerGet rotor
  let referenceOwner ← ownerGet stator
  if movingOwner == referenceOwner then
    .error .assertionError
  else
    revoluteSet ⟨stator, rotor, .revolute limit_angle limit_effort limit_velocity 0⟩ 0

/-- A mount point together with its registered joint slots (`_joint_outbound`
and `_joints_inbound` of the source). -/
structure MountWithJoints (L : Type) where
  mount : MountPoint L
  jointOutbound : Option (Joint L)
  jointsInbound : List (Joint L)

/-- Python list indexing: non-negative indices from the front, negative
indices from the back, `none` when out of range (an IndexError in the
source). -/
def pyListGet {α : Type} (xs : List α) (i : Int) : Option α :=
  if 0 ≤ i then xs.get? i.toNat
  else if 0 ≤ (xs.length : Int) + i then xs.get? ((xs.length : Int) + i).toNat
  else none

/-- Joint selection of `TransformResolver.__init__` (lines 792-798): `None`
selects the outbound joint; an integer indexes the inbound list, any lookup
exception degrading to no joint. -/
def selectJoint (mws : MountWithJoints L) (which : Option Int) : Option (Joint L) :=
  match which with
  | none => mws.jointOutbound
  | some i => pyListGet mws.jointsInbound i

/-- The state a `TransformResolver` holds after construction: the traversed
joint, the cumulative transform, the originating and far-side mounts, and the
wrapped target entity.  The `_previous` back-reference is None at
construction and is irrelevant to the claims. -/
structure TransformResolver (L : Type) where
  joint : Option (Joint L)
  transform : L
  origMount : MountPoint L
  nextMount : Option (MountPoint L)
  wrapped : Option Nat
deriving DecidableEq

/-- Model of `TransformResolver.__init__` (lines 785-837): select the joint;
if one is found, resolve the far-side mount, and compose
mount.location * joint.transform(mount, next) * Location((0,0,0),(180,0,90))
* next.location.inverse(), wrapping the far-side mount's owner (whose getter
asserts ownership); with no joint the transform is the identity Location()
and nothing is wrapped. -/
def TransformResolver.init (mws : MountWithJoints L) (which : Option Int) :
    Except PyErr (TransformResolver L) :=
  match selectJoint mws which with
  | some j => do
      let next ← get_other_mount j mws.mount
      let jt ← jointTransform mkLocation j mws.mount next
      let full := mws.mount.location * jt * mkLocation (0, 0, 0) (180, 0, 90) * next.location⁻¹
      let own ← ownerGet next
      .ok ⟨some j, full, mws.mount, some next, some own⟩
  | none =>
      .ok ⟨none, 1, mws.mount, none, none⟩

/-- The `wrapped` property (lines 870-873): asserts a wrapped entity exists,
failing loudly on a terminal resolver. -/
def TransformResolver.wrappedGet (r : TransformResolver L) : Except PyErr Nat :=
  match r.wrapped with
  | some t => .ok t
  | none => .error .assertionError

end Geometry

/-- Success test on an embedded fallible operation. -/
def isOkE {α : Type} : Except PyErr α → Bool
  | .ok _ => true
  | .error _ => false

/-- Position of the first element satisfying the predicate. -/
def firstIdxFrom {α : Type} (p : α → Bool) : List α → Option Nat
  | [] => none
  | e :: rest => if p e then some 0 else (firstIdxFrom p rest).map (· + 1)

/-- Written from the claim wording of C7, for comparison with the source
behaviour: the first entry, in capture order, of the capture-history list
whose recorded parameter names are a superset of all the delta keys' base
names (suffix modifiers stripped, pseudo-keys excluded). -/
def claimFirstSupersetIdx (history : List CapEntry) (keys : List String) : Option Nat :=
  firstIdxFrom
    (fun e =>
      (keys.filter (fun k => ¬ (k == "__add" || k == "__mul"))).all
        (fun k => decide (arg_basename k ∈ e.params.map Prod.fst)))
    history

/-- Specification of one step of the monotone scan that the source actually
performs: from the current index, the first entry at or after it whose
parameter names contain the base name; running past the end raises
ArgumentError naming the offending expression and the adjusted type, and an
empty history raises IndexError. -/
def monotoneScanStep (history : List CapEntry) (typeName orig base : String)
    (idx : Nat) : Except PyErr Nat :=
  match history.get? idx with
  | none => .error .indexError
  | some _ =>
      match firstIdxFrom (fun e => decide (base ∈ e.params.map Prod.fst)) (history.drop idx) with
      | some j => .ok (idx + j)
      | none => .error (.argumentError orig typeName)

/-- Specification of the whole implicit resolution as a monotone scan over
the delta keys in call order, starting at index 0 and skipping the
pseudo-keys. -/
def monotoneScanIdx (history : List CapEntry) (typeName : String)
    (keys : List String) : Except PyErr Nat :=
  keys.foldlM
    (fun idx key =>
      if key == "__add" || key == "__mul" then pure idx
      else monotoneScanStep history typeName key (arg_basename key) idx)
    0

section Samples

/-- Concrete computable group of rigid transforms used to instantiate the
abstract kernel in witnesses and counterexamples. -/
abbrev LZ : Type := Multiplicative ℤ

/-- Concrete interpretation of the numeric Location constructor in `LZ`. -/
def mkLocZ : ℚ × ℚ × ℚ → ℚ × ℚ × ℚ → LZ :=
  fun _ _ => Multiplicative.ofAdd 1

/-- Sample mount owned by entity 10. -/
def mountA : MountPoint LZ := ⟨0, Multiplicative.ofAdd 2, some 10⟩

/-- Sample mount owned by entity 11. -/
def mountB : MountPoint LZ := ⟨1, Multiplicative.ofAdd 3, some 11⟩

/-- Sample unowned mount. -/
def mountFree : MountPoint LZ := ⟨2, Multiplicative.ofAdd 5, none⟩

/-- Sample rigid joint between `mountA` and `mountB`. -/
def jointRigid : Joint LZ := ⟨mountA, mountB, .rigid⟩

/-- Sample revolute joint between `mountA` and `mountB` with limits
[-90, 90] and stored angle 45. -/
def jointRev : Joint LZ := ⟨mountA, mountB, .revolute (some (-90, 90)) none none 45⟩

/-- Sample mount-with-slots whose outbound joint is `jointRigid`. -/
def mwsRigid : MountWithJoints LZ := ⟨mountA, some jointRigid, []⟩

/-- Sample mount-with-slots with one inbound joint and no outbound joint. -/
def mwsInbound : MountWithJoints LZ := ⟨mountB, none, [jointRigid]⟩

/-- A capture history realizing a three-class chain Der -> Mid -> Base where
Der rebinds parameter a, Mid rebinds parameter b, and only Base records both
(capture order is most-derived first). -/
def histC7 : List CapEntry :=
  [⟨"Der", [("self", .thing 99), ("a", .num 1)]⟩,
   ⟨"Mid", [("self", .thing 99), ("b", .num 2)]⟩,
   ⟨"Base", [("self", .thing 99), ("a", .num 1), ("b", .num 2)]⟩]

/-- Record of a sample instance carrying `histC7`. -/
def recC7 : ThingRecord := ⟨histC7, none, 1, 0⟩

/-- A concrete constructor-chain abstraction for sample runs: the new record
captures the class and the keyword arguments. -/
def runInit0 : String → List Value → List (String × Value) → ThingRecord :=
  fun cls _ kwargs => ⟨[⟨cls, kwargs⟩], none, 1, 0⟩

/-- Sample world holding the instance with id 0 and an empty cache. -/
def w0 : World := ⟨1, [(0, recC7)], []⟩

/-- Record of a sample solid part: result volume 5, density 2, raw inertia
payload 7. -/
def recSolid : ThingRecord := ⟨[⟨"Part", [("self", .thing 3)]⟩], some 5, 2, 7⟩

/-- Sample world holding the solid part as instance 3. -/
def wSolid : World := ⟨4, [(3, recSolid)], []⟩

/-- Sample Thing object for the attribute guard: the class provides `adjust`
and `result`, and the instance dictionary already holds `x`. -/
def thingObjX : ThingObj := ⟨["adjust", "result"], [("x", .num 1)]⟩

end Samples

/-! Helper lemmas about the cache and registry. -/

theorem lookupCache_insert_self (c : List (String × Value)) (sig : String) (v : Value) :
    lookupCache ((sig, v) :: c) sig = some v := by
  simp [lookupCache, List.find?]

theorem lookupThing_fresh (ts : List (Nat × ThingRecord)) (n : Nat)
    (h : ∀ p ∈ ts, p.1 < n) : lookupThing ts n = none := by
  induction ts with
  | nil => rfl
  | cons p rest ih =>
      have hp : p.1 < n := h p (List.mem_cons_self p rest)
      have hne : ¬ p.1 == n := by simp [Nat.ne_of_lt hp]
      simp only [lookupThing, List.find?]
      rw [Bool.not_eq_true] at hne
      rw [hne]
      exact ih (fun q hq => h q (List.mem_cons_of_mem p hq))

theorem lookupThing_cons_ne (nid : Nat) (nr : ThingRecord) (ts : List (Nat × ThingRecord))
    (id : Nat) (hne : nid ≠ id) :
    lookupThing ((nid, nr) :: ts) id = lookupThing ts id := by
  have : ¬ nid == id := by simp [hne]
  rw [Bool.not_eq_true] at this
  simp only [lookupThing, List.find?, this]

theorem lookupThing_some_lt (ts : List (Nat × ThingRecord)) (id : Nat) (r : ThingRecord)
    (n : Nat) (hwf : ∀ p ∈ ts, p.1 < n) (h : lookupThing ts id = some r) : id < n := by
  unfold lookupThing at h
  cases hf : ts.find? (fun p => p.1 == id) with
  | none => rw [hf] at h; simp at h
  | some p =>
      have hmem := List.mem_of_find?_eq_some hf
      have heq := List.find?_some hf
      have hp : p.1 = id := by simpa using heq
      exact hp ▸ hwf p hmem

/-! Claim theorems and their witnesses. -/

/-- Claim C2: for every two construction calls of the same entity class with
logically-equal positional/keyword argument sets, the second call returns the
identical instance (identity equality: the same object id) that the first
call produced, and the cached instance is returned unchanged (the world,
including the instance registry and cache, is untouched by the second
call). -/
theorem c2_memoized_construction
    (runInit : String → List Value → List (String × Value) → ThingRecord)
    (cls1 cls2 : String) (args1 args2 : List Value)
    (kwargs1 kwargs2 : List (String × Value)) (w : World)
    (hc : cls1 = cls2) (ha : args1 = args2) (hk : kwargs1 = kwargs2) :
    (constructThing runInit cls2 args2 kwargs2
        (constructThing runInit cls1 args1 kwargs1 w).2).1
      = (constructThing runInit cls1 args1 kwargs1 w).1
    ∧ (constructThing runInit cls2 args2 kwargs2
        (constructThing runInit cls1 args1 kwargs1 w).2).2
      = (constructThing runInit cls1 args1 kwargs1 w).2 := by
  subst hc; subst ha; subst hk
  unfold constructThing memoizeCall
  cases h : lookupCache w.cache (constructSig cls1 args1 kwargs1) with
  | some v => simp [h]
  | none => simp [h, lookupCache_insert_self]

/-- Witness for C2 at a concrete class, argument list and world. -/
theorem c2_memoized_construction_witness :
    (constructThing runInit0 "Box" [Value.num 1] []
        (constructThing runInit0 "Box" [Value.num 1] [] w0).2).1
      = (constructThing runInit0 "Box" [Value.num 1] [] w0).1
    ∧ (constructThing runInit0 "Box" [Value.num 1] []
        (constructThing runInit0 "Box" [Value.num 1] [] w0).2).2
      = (constructThing runInit0 "Box" [Value.num 1] [] w0).2 :=
  c2_memoized_construction runInit0 "Box" "Box" [Value.num 1] [Value.num 1] [] [] w0
    rfl rfl rfl

/-- Claim C10: the memoization cache is shared across memoized operations and
keyed only by the stringified argument list; a bare `matrix_of_inertia` call
after a bare `volume_mm3` call on the same instance hits the entry the volume
call stored, and returns the stored volume value rather than an inertia
result. -/
theorem c10_cache_collision (tid : Nat) (r : ThingRecord) (w : World)
    (h : lookupCache w.cache (methodSig [Value.thing tid] []) = none) :
    (matrix_of_inertia tid r (volume_mm3 tid r w).2).1 = volume_mm3_compute r
    ∧ (matrix_of_inertia tid r (volume_mm3 tid r w).2).1 = (volume_mm3 tid r w).1 := by
  unfold matrix_of_inertia volume_mm3 memoizeCall
  simp [h, lookupCache_insert_self]

/-- Witness for C10 on a concrete solid instance in a fresh-cache world: the
inertia call returns the volume number 5. -/
theorem c10_cache_collision_witness :
    (matrix_of_inertia 3 recSolid (volume_mm3 3 recSolid wSolid).2).1
      = volume_mm3_compute recSolid
    ∧ (matrix_of_inertia 3 recSolid (volume_mm3 3 recSolid wSolid).2).1
      = (volume_mm3 3 recSolid wSolid).1 :=
  c10_cache_collision 3 recSolid wSolid rfl

/-- Claim C3: for every entity and every attribute name already present on it
(in the instance dictionary or on the class), any subsequent write -- with
any value, from any caller -- fails with the AttributeError reassignment
violation, before any state is touched (the guard raises ahead of the
backing-store write). -/
theorem c3_setattr_reassignment (self : ThingObj) (selfId : Nat)
    (frame1 frame2 name : String) (v : Value)
    (hid : isPyIdentifier name = true) (hmem : name ∈ dirOf self) :
    Thing.setattr self selfId frame1 frame2 name v
      = .error (.attributeError ("Attribute " ++ name ++ " cannot be reassigned. Instantiate a new Thing by new_altered method if you need to modify it.")) := by
  unfold Thing.setattr
  simp [hid, hmem]

/-- Witness for C3: rewriting the existing attribute `x` on a sample entity
from an arbitrary caller fails with the reassignment AttributeError. -/
theorem c3_setattr_reassignment_witness :
    Thing.setattr thingObjX 0 "somecaller" "outer" "x" (Value.num 2)
      = .error (.attributeError ("Attribute " ++ "x" ++ " cannot be reassigned. Instantiate a new Thing by new_altered method if you need to modify it.")) :=
  c3_setattr_reassignment thingObjX 0 "somecaller" "outer" "x" (Value.num 2)
    (by decide) (by decide)

/-- Claim C4: for every joint with distinct reference and moving mounts (the
constructor enforces distinct owners, hence distinct mount objects), the
transform queried from the reference side equals the inverse of the transform
queried from the moving side, exactly, for every stored parameter state. -/
theorem c4_transform_inverse {L : Type} [Group L] (mk : ℚ × ℚ × ℚ → ℚ × ℚ × ℚ → L)
    (j : Joint L) (hmid : j.referenceMount.mid ≠ j.movingMount.mid) :
    jointTransform mk j j.referenceMount j.movingMount
      = Except.map Inv.inv (jointTransform mk j j.movingMount j.referenceMount) := by
  unfold jointTransform
  cases hs : j.spec with
  | rigid => simp [Except.map]
  | revolute la le lv a =>
      have h1 : (j.movingMount.mid == j.referenceMount.mid) = false := by
        simp [Ne.symm hmid]
      simp [h1, Except.map]

/-- Witness for C4 on the sample revolute joint at angle 45. -/
theorem c4_transform_inverse_witness :
    jointTransform mkLocZ jointRev jointRev.referenceMount jointRev.movingMount
      = Except.map Inv.inv
          (jointTransform mkLocZ jointRev jointRev.movingMount jointRev.referenceMount) :=
  c4_transform_inverse mkLocZ jointRev (by decide)

/-- Counterexample to claim C5: `Rigid.transform` ignores its mount arguments
entirely, so on the invalid pair (reference, reference) -- which is neither
(reference, moving) nor (moving, reference), the moving mount having a
different identity -- it returns the identity transform instead of raising
ValueError. -/
theorem c5_counterexample :
    jointTransform mkLocZ jointRigid mountA mountA = Except.ok 1
    ∧ mountA.mid ≠ jointRigid.movingMount.mid
    ∧ jointTransform mkLocZ jointRigid mountA mountA ≠ Except.error PyErr.valueError :=
  ⟨rfl, by decide, fun h => Except.noConfusion h⟩

/-- Claim C5 as amended: `Revolute.transform` raises ValueError on every
mount pair that is neither (reference, moving) nor (moving, reference), but
`Rigid.transform` performs no validation and returns the identity transform
for every mount pair whatsoever. -/
theorem c5_amended_transform_validation {L : Type} [Group L]
    (mk : ℚ × ℚ × ℚ → ℚ × ℚ × ℚ → L) :
    (∀ (j : Joint L) (la : Option (ℚ × ℚ)) (le lv : Option ℚ) (a : ℚ),
        j.spec = .revolute la le lv a →
        ∀ m1 m2 : MountPoint L,
          ¬ ((m1.mid = j.referenceMount.mid ∧ m2.mid = j.movingMount.mid)
             ∨ (m1.mid = j.movingMount.mid ∧ m2.mid = j.referenceMount.mid)) →
          jointTransform mk j m1 m2 = .error .valueError)
    ∧ (∀ j : Joint L, j.spec = .rigid →
        ∀ m1 m2 : MountPoint L, jointTransform mk j m1 m2 = .ok 1) := by
  constructor
  · intro j la le lv a hspec m1 m2 hpair
    unfold jointTransform
    rw [hspec]
    simp only [Bool.and_eq_true, beq_iff_eq]
    split_ifs with h1 h2
    · exact absurd (Or.inl h1) hpair
    · exact absurd (Or.inr h2) hpair
    · rfl
  · intro j hspec m1 m2
    unfold jointTransform
    rw [hspec]

/-- Witness for the amended C5: the sample revolute joint raises ValueError
on the pair (reference, reference). -/
theorem c5_amended_transform_validation_witness :
    jointTransform mkLocZ jointRev mountA mountA = Except.error PyErr.valueError :=
  (c5_amended_transform_validation mkLocZ).1 jointRev (some (-90, 90)) none none 45
    rfl mountA mountA (by decide)

/-- Characterization of a successful Revolute construction: the resulting
joint carries the declared limits and the default angle 0. -/
theorem revoluteNew_ok_spec {L : Type} [Group L] (stator rotor : MountPoint L)
    (lv le : Option ℚ) (la : Option (ℚ × ℚ)) (j : Joint L)
    (h : revoluteNew stator rotor lv le la = .ok j) :
    j = ⟨stator, rotor, .revolute la le lv 0⟩ := by
  unfold revoluteNew ownerGet at h
  cases hro : rotor.ownerId with
  | none => rw [hro] at h; simp [ownerGet, Except.bind, bind] at h
  | some mo =>
      cases hso : stator.ownerId with
      | none => rw [hro, hso] at h; simp [ownerGet, Except.bind, bind] at h
      | some ro =>
          rw [hro, hso] at h
          simp only [Except.bind, bind] at h
          by_cases hmo : (mo == ro) = true
          · rw [if_pos hmo] at h; exact absurd h (by simp)
          · rw [if_neg hmo] at h
            cases la with
            | none =>
                simp only [revoluteSet] at h
                simpa using h.symm
            | some lohi =>
                simp only [revoluteSet] at h
                by_cases hc : lohi.1 ≤ (0 : ℚ) ∧ (0 : ℚ) ≤ lohi.2
                · rw [if_pos hc] at h; simpa using h.symm
                · rw [if_neg hc] at h; exact absurd h (by simp)

/-- Claim C6: for a Revolute joint constructed with declared limits
[lo, hi], `set(alpha)` succeeds iff lo <= alpha <= hi (inclusive bounds);
for a Revolute joint constructed without limits, `set(alpha)` succeeds for
every alpha. -/
theorem c6_revolute_set_limits {L : Type} [Group L] :
    (∀ (stator rotor : MountPoint L) (lv le : Option ℚ) (lo hi : ℚ) (j : Joint L),
        revoluteNew stator rotor lv le (some (lo, hi)) = .ok j →
        ∀ alpha : ℚ, (isOkE (revoluteSet j alpha) = true ↔ lo ≤ alpha ∧ alpha ≤ hi))
    ∧ (∀ (stator rotor : MountPoint L) (lv le : Option ℚ) (j : Joint L),
        revoluteNew stator rotor lv le none = .ok j →
        ∀ alpha : ℚ, isOkE (revoluteSet j alpha) = true) := by
  constructor
  · intro stator rotor lv le lo hi j h alpha
    have hj := revoluteNew_ok_spec stator rotor lv le (some (lo, hi)) j h
    subst hj
    simp only [revoluteSet]
    split_ifs with hc
    · simp [isOkE, hc]
    · simp [isOkE, hc]
  · intro stator rotor lv le j h alpha
    have hj := revoluteNew_ok_spec stator rotor lv le none j h
    subst hj
    rfl

/-- Witness for C6: the sample joint constructed with limits [-90, 90]
accepts 45 iff 45 is within the bounds. -/
theorem c6_revolute_set_limits_witness :
    isOkE (revoluteSet (⟨mountA, mountB, .revolute (some (-90, 90)) none none 0⟩ : Joint LZ) 45)
        = true
      ↔ (-90 : ℚ) ≤ 45 ∧ (45 : ℚ) ≤ 90 :=
  (c6_revolute_set_limits (L := LZ)).1 mountA mountB none none (-90) 90
    ⟨mountA, mountB, .revolute (some (-90, 90)) none none 0⟩ rfl 45

/-- Out-of-range Python indexing returns nothing. -/
theorem pyListGet_none {α : Type} (xs : List α) (i : Int)
    (h : (xs.length : Int) ≤ i ∨ i < -(xs.length : Int)) : pyListGet xs i = none := by
  unfold pyListGet
  rcases h with h | h
  · have h0 : 0 ≤ i := le_trans (Int.ofNat_nonneg xs.length) h
    rw [if_pos h0]
    apply List.get?_eq_none.mpr
    omega
  · have h0 : ¬ 0 ≤ i := by omega
    have h1 : ¬ 0 ≤ (xs.length : Int) + i := by omega
    rw [if_neg h0, if_neg h1]

/-- Claim C9: constructing a resolver with an inbound selector index outside
the valid Python index range of the inbound-joint list does not raise: it
yields the terminal resolver with identity cumulative transform and no
wrapped entity, and accessing the `wrapped` property of that terminal
resolver fails loudly. -/
theorem c9_out_of_range_terminal {L : Type} [Group L]
    (mk : ℚ × ℚ × ℚ → ℚ × ℚ × ℚ → L) (mws : MountWithJoints L) (i : Int)
    (hrange : (mws.jointsInbound.length : Int) ≤ i ∨ i < -(mws.jointsInbound.length : Int)) :
    TransformResolver.init mk mws (some i)
        = .ok ⟨none, 1, mws.mount, none, none⟩
    ∧ TransformResolver.wrappedGet
        (⟨none, (1 : L), mws.mount, none, none⟩ : TransformResolver L)
        = .error .assertionError := by
  constructor
  · have hsel : selectJoint mws (some i) = none := pyListGet_none _ _ hrange
    unfold TransformResolver.init
    rw [hsel]
  · rfl

/-- Witness for C9 at index 5 on a one-joint inbound list. -/
theorem c9_out_of_range_terminal_witness :
    TransformResolver.init mkLocZ mwsInbound (some 5)
        = .ok ⟨none, 1, mwsInbound.mount, none, none⟩
    ∧ TransformResolver.wrappedGet
        (⟨none, (1 : LZ), mwsInbound.mount, none, none⟩ : TransformResolver LZ)
        = .error .assertionError :=
  c9_out_of_range_terminal mkLocZ mwsInbound 5 (by decide)

/-- Claim C1: whenever the selector finds a joint (the outbound joint for a
None selector, or a valid inbound joint at the given index), the constructed
resolver's cumulative transform is
mount.location * joint.transform(mount, next) * MOUNTING_LOCATION *
next.location.inverse(), and the wrapped target is the far-side mount's
owning entity. -/
theorem c1_resolver_full_transform {L : Type} [Group L]
    (mk : ℚ × ℚ × ℚ → ℚ × ℚ × ℚ → L) (mws : MountWithJoints L) (which : Option Int)
    (j : Joint L) (next : MountPoint L) (jt : L) (own : Nat)
    (hj : selectJoint mws which = some j)
    (hn : get_other_mount j mws.mount = .ok next)
    (ht : jointTransform mk j mws.mount next = .ok jt)
    (ho : next.ownerId = some own) :
    TransformResolver.init mk mws which
      = .ok ⟨some j, mws.mount.location * jt * MOUNTING_LOCATION mk * next.location⁻¹,
             mws.mount, some next, some own⟩ := by
  unfold TransformResolver.init
  rw [hj]
  simp only [hn, ht, ho, ownerGet, MOUNTING_LOCATION, bind, Except.bind]

/-- Witness for C1: the rigid sample joint traversed from `mountA`. -/
theorem c1_resolver_full_transform_witness :
    TransformResolver.init mkLocZ mwsRigid none
      = .ok ⟨some jointRigid,
             mountA.location * 1 * MOUNTING_LOCATION mkLocZ * mountB.location⁻¹,
             mountA, some mountB, some 11⟩ :=
  c1_resolver_full_transform mkLocZ mwsRigid none jointRigid mountB 1 11
    rfl rfl rfl rfl

/-- Counterexample to claim C7: on the three-entry capture history
Der(a) / Mid(b) / Base(a, b) with delta keys a, b the source's monotone scan
resolves to entry 1 (class Mid), although the first entry whose parameter
names are a superset of the delta base names is entry 2 (class Base); the
subsequent delta application then fails with an AssertionError because entry
Mid does not record parameter a, instead of re-constructing Base as the
claim prescribes. -/
theorem c7_counterexample :
    resolveImplicit histC7 "Der" ["a", "b"] = .ok 1
    ∧ claimFirstSupersetIdx histC7 ["a", "b"] = some 2
    ∧ (adjust runInit0 recC7 "Der" none [("a", Value.num 5), ("b", Value.num 7)] w0).1
        = .error .assertionError :=
  ⟨rfl, rfl, rfl⟩

/-- The while loop, entered with the remaining entries and the running index,
finds the first remaining entry containing the base name; otherwise it
reports ArgumentError, or IndexError when no entry is available at all. -/
theorem whileAdvanceAux_eq (tn o b : String) (l : List CapEntry) :
    ∀ idx : Nat,
      whileAdvanceAux tn o b (idx + l.length) l idx
        = (match firstIdxFrom (fun e => decide (b ∈ e.params.map Prod.fst)) l with
          | some j => Except.ok (idx + j)
          | none =>
              if l.isEmpty then Except.error PyErr.indexError
              else Except.error (PyErr.argumentError o tn)) := by
  induction l with
  | nil => intro idx; rfl
  | cons e rest ih =>
      intro idx
      by_cases hp : b ∈ e.params.map Prod.fst
      · simp [whileAdvanceAux, firstIdxFrom, hp]
      · cases rest with
        | nil => simp [whileAdvanceAux, firstIdxFrom, hp]
        | cons e2 rest2 =>
            have hlen : ¬ (idx + (e :: e2 :: rest2).length ≤ idx + 1) := by
              simp only [List.length_cons]; omega
            have harith : idx + (e :: e2 :: rest2).length = (idx + 1) + (e2 :: rest2).length := by
              simp only [List.length_cons]; omega
            rw [show whileAdvanceAux tn o b (idx + (e :: e2 :: rest2).length) (e :: e2 :: rest2) idx
                  = whileAdvanceAux tn o b (idx + (e :: e2 :: rest2).length) (e2 :: rest2) (idx + 1) from by
              simp [whileAdvanceAux, hp, hlen]]
            rw [harith, ih (idx + 1)]
            have hstep : firstIdxFrom (fun e => decide (b ∈ e.params.map Prod.fst)) (e :: e2 :: rest2)
                = Option.map (· + 1)
                    (firstIdxFrom (fun e => decide (b ∈ e.params.map Prod.fst)) (e2 :: rest2)) := by
              simp [firstIdxFrom, hp]
            rw [hstep]
            cases hf : firstIdxFrom (fun e => decide (b ∈ e.params.map Prod.fst)) (e2 :: rest2) with
            | some j =>
                have harr : idx + 1 + j = idx + (j + 1) := by omega
                simp [hf, harr]
            | none => simp [hf]

/-- Pointwise equality of the while loop with the monotone-scan step. -/
theorem whileAdvance_eq_step (history : List CapEntry) (tn o b : String) (idx : Nat) :
    whileAdvance history tn o b idx = monotoneScanStep history tn o b idx := by
  unfold whileAdvance monotoneScanStep
  by_cases hlt : idx < history.length
  · have hdrop_len : history.length = idx + (history.drop idx).length := by
      rw [List.length_drop]; omega
    rw [hdrop_len, whileAdvanceAux_eq]
    obtain ⟨e, he⟩ : ∃ e, history.get? idx = some e := by
      rw [List.get?_eq_getElem?]
      exact ⟨history[idx], List.getElem?_eq_getElem hlt⟩
    rw [he]
    have hne : (history.drop idx).isEmpty = false := by
      rw [List.isEmpty_eq_false_iff_exists_mem]
      have : history.drop idx ≠ [] := by
        intro hnil
        have := List.drop_eq_nil_iff.mp hnil
        omega
      exact List.exists_mem_of_ne_nil _ this
    cases hf : firstIdxFrom (fun e => decide (b ∈ e.params.map Prod.fst)) (history.drop idx) with
    | some j => rfl
    | none => simp [hne]
  · have hdrop : history.drop idx = [] := List.drop_eq_nil_of_le (by omega)
    have hget : history.get? idx = none := List.get?_eq_none.mpr (by omega)
    rw [hdrop, hget]
    rfl

/-- Claim C7 as amended: with no explicit class argument, `adjust` resolves
the class by a monotone scan over the delta keys in call order -- for each
non-pseudo key advancing the index to the first capture entry at or after
the current index whose parameter names contain the key's base name -- and
uses the entry at the final index (which need not record the earlier keys'
parameters); when a key's scan runs past the end of the history, adjust
fails with an ArgumentError naming the offending parameter expression and
the adjusted type, and an empty history fails with IndexError. -/
theorem c7_amended_resolution (history : List CapEntry) (typeName : String)
    (keys : List String) :
    resolveImplicit history typeName keys = monotoneScanIdx history typeName keys := by
  have hstepfun :
      (fun (idx : Nat) (key : String) =>
        if key == "__add" || key == "__mul" then (pure idx : Except PyErr Nat)
        else whileAdvance history typeName key (arg_basename key) idx)
      = (fun (idx : Nat) (key : String) =>
        if key == "__add" || key == "__mul" then (pure idx : Except PyErr Nat)
        else monotoneScanStep history typeName key (arg_basename key) idx) := by
    funext idx key
    by_cases hk : (key == "__add" || key == "__mul") = true
    · rw [if_pos hk, if_pos hk]
    · rw [if_neg hk, if_neg hk, whileAdvance_eq_step]
  unfold resolveImplicit monotoneScanIdx
  rw [hstepfun]

/-- The construction step either leaves the registry untouched (cache hit) or
prepends exactly one record under the next fresh id. -/
theorem constructThing_things
    (runInit : String → List Value → List (String × Value) → ThingRecord)
    (cls : String) (args : List Value) (kwargs : List (String × Value)) (w : World) :
    (constructThing runInit cls args kwargs w).2.things = w.things
    ∨ (constructThing runInit cls args kwargs w).2.things
        = (w.nextId, runInit cls args kwargs) :: w.things := by
  unfold constructThing memoizeCall
  cases h : lookupCache w.cache (constructSig cls args kwargs) with
  | some v => simp [h]
  | none => simp [h]

/-- Claim C8: an `adjust` call, succeeding or failing, never changes any
pre-existing instance: every registered record, in particular the adjusted
original's, is still registered unchanged afterwards; and the registry is
either untouched (an exception, or a memoized pre-existing result) or
extended by exactly one fresh record under an id that was not registered
before -- the original is never mutated in place. -/
theorem c8_adjust_frame
    (runInit : String → List Value → List (String × Value) → ThingRecord)
    (record : ThingRecord) (typeName : String) (clsArg : Option String)
    (deltas : List (String × Value)) (w : World)
    (hwf : ∀ p ∈ w.things, p.1 < w.nextId) :
    (∀ (id : Nat) (r : ThingRecord),
        lookupThing w.things id = some r →
        lookupThing (adjust runInit record typeName clsArg deltas w).2.things id = some r)
    ∧ ((adjust runInit record typeName clsArg deltas w).2.things = w.things
       ∨ ∃ nr : ThingRecord,
           (adjust runInit record typeName clsArg deltas w).2.things
               = (w.nextId, nr) :: w.things
           ∧ lookupThing w.things w.nextId = none) := by
  have hworld : (adjust runInit record typeName clsArg deltas w).2.things = w.things
      ∨ ∃ nr : ThingRecord,
          (adjust runInit record typeName clsArg deltas w).2.things
            = (w.nextId, nr) :: w.things := by
    unfold adjust
    cases hres : adjustResolve record.history typeName clsArg (deltas.map Prod.fst) with
    | error e => exact Or.inl rfl
    | ok i =>
        dsimp only
        cases hget : record.history.get? i with
        | none => exact Or.inl rfl
        | some entry =>
            dsimp only
            cases happ : applyDeltas (dictRemove entry.params "self") deltas with
            | error e => exact Or.inl rfl
            | ok params1 =>
                dsimp only
                rcases constructThing_things runInit entry.cls [] params1 w with hc | hc
                · exact Or.inl hc
                · exact Or.inr ⟨runInit entry.cls [] params1, hc⟩
  constructor
  · intro id r hr
    rcases hworld with hw | ⟨nr, hw⟩
    · rw [hw]; exact hr
    · rw [hw]
      have hid : id < w.nextId := lookupThing_some_lt w.things id r w.nextId hwf hr
      rw [lookupThing_cons_ne w.nextId nr w.things id (by omega)]
      exact hr
  · rcases hworld with hw | ⟨nr, hw⟩
    · exact Or.inl hw
    · exact Or.inr ⟨nr, hw, lookupThing_fresh w.things w.nextId hwf⟩

/-- Witness for C8: a concrete adjust of the sample instance, with the
original record still registered unchanged afterwards. -/
theorem c8_adjust_frame_witness :
    (∀ (id : Nat) (r : ThingRecord),
        lookupThing w0.things id = some r →
        lookupThing (adjust runInit0 recC7 "Der" none [("a", Value.num 5)] w0).2.things id
          = some r)
    ∧ ((adjust runInit0 recC7 "Der" none [("a", Value.num 5)] w0).2.things = w0.things
       ∨ ∃ nr : ThingRecord,
           (adjust runInit0 recC7 "Der" none [("a", Value.num 5)] w0).2.things
               = (w0.nextId, nr) :: w0.things
           ∧ lookupThing w0.things w0.nextId = none) :=
  c8_adjust_frame runInit0 recC7 "Der" none [("a", Value.num 5)] w0 (by decide)

end B123T
